import Mathlib

/-!
Shallow embedding of the latch-asgi connection-level protocol adapter
(`latch_asgi/framework.py` and `latch_asgi/context/websocket.py`).

Bytes are modelled as `List Nat` (one entry per byte), event streams as
`List` of event values consumed front-to-first, and the fallible async
operations as total functions into explicit result types.  External
collaborators (the JSON codec, the structural validator, the signature
verifier) are passed in as function parameters, matching the spec's
black-box treatment of them.
-/

namespace LatchAsgi

/-- Python `s.encode("utf-8")` on a `str`: the UTF-8 byte sequence of `s`. -/
def utf8Encode (s : String) : List Nat :=
  (s.data.map String.utf8EncodeChar).flatten.map UInt8.toNat

/-- Python `s.encode("latin-1")` on a `str` whose characters are all below
U+0100: each character becomes the byte with its code point. -/
def latin1Encode (s : String) : List Nat :=
  s.data.map Char.toNat

/-- Python `bs.decode("latin-1")`: each byte becomes the character with its
code point. -/
def latin1Decode (bs : List Nat) : String :=
  ⟨bs.map Char.ofNat⟩

/-- A value of Python type `str | bytes` (payloads and `Headers` entries). -/
inductive StrOrBytes where
  | str (s : String)
  | bytes (b : List Nat)
deriving DecidableEq

/-- Model of `if isinstance(x, str): x = x.encode("latin-1")` — the header-encoding
step applied to each key and value of a `Headers` dict. -/
def StrOrBytes.encodeLatin1 : StrOrBytes → List Nat
  | .str s => latin1Encode s
  | .bytes b => b

/-- Model of `if isinstance(data, str): data = data.encode("utf-8")` — the body
normalization step of the senders. -/
def StrOrBytes.encodeUtf8IfStr : StrOrBytes → List Nat
  | .str s => utf8Encode s
  | .bytes b => b

-- >>> HTTP receive side (`receive_data` and its wrappers)

/-- One event delivered by the gateway's HTTP receive primitive: either an
`http.request` message carrying `body` and `more_body`, or `http.disconnect`. -/
inductive HTTPReceiveEvent where
  | request (body : List Nat) (more_body : Bool)
  | disconnect
deriving DecidableEq

/-- Outcome of `receive_data` run against a finite event list.
`connectionClosed` is the `HTTPConnectionClosedError` raise;
`noMoreEvents` means the finite event list ran out while `more_body` was
still true (in the real system the coroutine would stay suspended). -/
inductive HTTPRecvResult (α : Type) where
  | ok (a : α)
  | connectionClosed
  | noMoreEvents
deriving DecidableEq

/-- The `while more_body` loop of `receive_data`, with `res` the
accumulated buffer. -/
def receive_data_loop (res : List Nat) : List HTTPReceiveEvent → HTTPRecvResult (List Nat)
  | [] => .noMoreEvents
  | .disconnect :: _ => .connectionClosed
  | .request body more_body :: rest =>
    if more_body then receive_data_loop (res ++ body) rest
    else .ok (res ++ body)

/-- Model of `receive_data(receive)`: drain the request body, starting from the
empty buffer with `more_body = True`. -/
def receive_data (evts : List HTTPReceiveEvent) : HTTPRecvResult (List Nat) :=
  receive_data_loop [] evts

/-- Encode a chunk list as the gateway delivery
`[(b1, true), ..., (bn, false)]`: every chunk flagged `more_body = true`
except the last. -/
def chunkEvents : List (List Nat) → List HTTPReceiveEvent
  | [] => []
  | [b] => [.request b false]
  | b :: b2 :: rest => .request b true :: chunkEvents (b2 :: rest)

-- >>> Websocket receive side

/-- One event delivered by the gateway's websocket receive primitive
(`websocket.connect`, `websocket.disconnect`, or `websocket.receive` with
its `bytes | None` and `text | None` payloads). -/
inductive WebsocketReceiveEvent where
  | connect
  | disconnect
  | message (bytes : Option (List Nat)) (text : Option String)
deriving DecidableEq

/-- Outcome of one websocket receive operation: a value, the
`WebsocketConnectionClosedError` raise, or a `WebsocketBadMessage` raise
with its payload. -/
inductive WSRecvResult (α : Type) where
  | ok (a : α)
  | connectionClosed
  | badMessage (payload : String)
deriving DecidableEq

/-- The body of `receive_websocket_data` applied to the one event obtained
from `receive()`. -/
def receive_websocket_data_ev : WebsocketReceiveEvent → WSRecvResult (List Nat)
  | .connect => .badMessage "connection has already been established"
  | .disconnect => .connectionClosed
  | .message b t =>
    match b with
    | some bs => .ok bs
    | none =>
      match t with
      | some s => .ok (utf8Encode s)
      | none => .badMessage "empty message"

/-- Model of `receive_websocket_data(receive)`: consume the next gateway event and
produce the message outcome together with the remaining stream; `none`
when the finite event list is exhausted (the call would stay suspended). -/
def receive_websocket_data (evts : List WebsocketReceiveEvent) :
    Option (WSRecvResult (List Nat) × List WebsocketReceiveEvent) :=
  match evts with
  | [] => none
  | e :: rest => some (receive_websocket_data_ev e, rest)

/-- Outcome of draining `receive_websocket_data_iter` over a finite event
list: `closed msgs` = the generator yielded `msgs` and then terminated
normally on `WebsocketConnectionClosedError`; `raised msgs payload` = it
yielded `msgs` and then a `WebsocketBadMessage payload` escaped;
`starved msgs` = the finite event list ran out. -/
inductive WSIterResult where
  | closed (msgs : List (List Nat))
  | raised (msgs : List (List Nat)) (payload : String)
  | starved (msgs : List (List Nat))
deriving DecidableEq

/-- Prepend one yielded message to an iterator outcome. -/
def WSIterResult.consMsg (b : List Nat) : WSIterResult → WSIterResult
  | .closed ms => .closed (b :: ms)
  | .raised ms p => .raised (b :: ms) p
  | .starved ms => .starved (b :: ms)

/-- Model of `receive_websocket_data_iter(receive)`: loop yielding
`receive_websocket_data` results, breaking (without raising) on
`WebsocketConnectionClosedError`; any other raise escapes. -/
def receive_websocket_data_iter : List WebsocketReceiveEvent → WSIterResult
  | [] => .starved []
  | e :: rest =>
    match receive_websocket_data_ev e with
    | .ok b => (receive_websocket_data_iter rest).consMsg b
    | .connectionClosed => .closed []
    | .badMessage p => .raised [] p

-- >>> HTTP send side (`send_http_data`, `send_json`)

/-- One event passed to the gateway's HTTP send primitive. -/
inductive HTTPSendEvent where
  | start (status : Nat) (headers : List (List Nat × List Nat))
  | body (body : List Nat) (more_body : Bool)
deriving DecidableEq

/-- Model of `send_http_data(send, status, data, content_type=..., headers=...)`:
returns the list of wire events passed to `send`, in emission order.
Callers pass `content_type` explicitly (the Python default is
`"text/plain"`; `send_json` passes `"application/json"`). -/
def send_http_data (status : Nat) (data : StrOrBytes) (content_type : Option StrOrBytes)
    (headers : List (StrOrBytes × StrOrBytes)) : List HTTPSendEvent :=
  let d := data.encodeUtf8IfStr
  let headers_to_send :=
    [(latin1Encode "Content-Length", latin1Encode (Nat.repr d.length))]
      ++ headers.map (fun kv => (kv.1.encodeLatin1, kv.2.encodeLatin1))
      ++ (match content_type with
          | some ct => [(latin1Encode "Content-Type", ct.encodeLatin1)]
          | none => [])
  [.start status headers_to_send, .body d false]

/-- Model of `send_json(send, status, data, content_type=..., headers=...)`, with the
external Codec serialization (`orjson.dumps`) passed in as `dumps`. -/
def send_json {J : Type} (dumps : J → List Nat) (status : Nat) (data : J)
    (content_type : StrOrBytes) (headers : List (StrOrBytes × StrOrBytes)) :
    List HTTPSendEvent :=
  send_http_data status (.bytes (dumps data)) (some content_type) headers

/-- Modelled from the spec: the external JSON Codec's serialization
(`orjson.dumps`, outside this repository) applied to the literal object
with the single field `a = 1`; the spec fixes the body bytes for this
input to the compact seven-byte text (brace, quote, a, quote, colon,
digit one, brace). -/
def dumpsLitA1 : Unit → List Nat :=
  fun _ => utf8Encode "\x7b\"a\":1\x7d"

-- >>> Websocket accept

/-- The `websocket.accept` event built and sent on a successful accept. -/
structure WebsocketAcceptEvent where
  subprotocol : Option String
  headers : List (List Nat × List Nat)
deriving DecidableEq

/-- Outcome of `accept_websocket_connection`: the accept event that was
sent plus the remaining stream, or the `WebsocketBadMessage` raise (which
happens before anything is sent), or stream exhaustion. -/
inductive AcceptResult where
  | accepted (sent : WebsocketAcceptEvent) (rest : List WebsocketReceiveEvent)
  | badMessage (payload : String)
  | noMoreEvents
deriving DecidableEq

/-- Model of `accept_websocket_connection(send, receive, subprotocol=..., headers=...)`:
receive one event; anything other than `websocket.connect` raises
bad-message; otherwise encode the headers Latin-1 and send the accept
event. -/
def accept_websocket_connection (subprotocol : Option String)
    (headers : List (StrOrBytes × StrOrBytes)) :
    List WebsocketReceiveEvent → AcceptResult
  | [] => .noMoreEvents
  | .connect :: rest =>
    .accepted
      ⟨subprotocol, headers.map fun kv => (kv.1.encodeLatin1, kv.2.encodeLatin1)⟩ rest
  | .disconnect :: _ => .badMessage "cannot accept connection without connection request"
  | .message _ _ :: _ => .badMessage "cannot accept connection without connection request"

-- >>> Request context (`WebsocketContext`)

/-- Modelled from the spec: `Authorization` from `latch_asgi.auth` (that
module is not under `src/`) — an optional subject identifier; the
Authorization "is present" exactly when the subject is set, and
`unauthorized_if_none` fails when it is not. -/
structure Authorization where
  oauth_sub : Option String
deriving DecidableEq

/-- Python dict lookup `d[x]` / `x in d` on the header cache, modelled as
an association list. -/
def dictGet (d : List (List Nat × List Nat)) (x : List Nat) : Option (List Nat) :=
  match d with
  | [] => none
  | (k, v) :: rest => if k = x then some v else dictGet rest x

/-- Python dict assignment `d[k] = v`: replace the value of an existing
key in place, else append the new binding. -/
def dictSet (d : List (List Nat × List Nat)) (k v : List Nat) :
    List (List Nat × List Nat) :=
  match d with
  | [] => [(k, v)]
  | (k', v') :: rest => if k' = k then (k, v) :: rest else (k', v') :: dictSet rest k v

/-- The per-connection context: the borrowed scope's header list, the lazy
header cache, the Authorization, the db-response counter, and the
attribute records written to the request span (the observability side
effects of `add_request_span_attrs`, kept here so they are observable). -/
structure WebsocketContext where
  scope_headers : List (List Nat × List Nat)
  _header_cache : List (List Nat × List Nat)
  auth : Authorization
  _db_response_idx : Nat
  span_records : List (String × List (String × String))
deriving DecidableEq

/-- The `for k, v in self.scope.headers` loop of `WebsocketContext.header`:
memoize every header encountered, return on the first key equal to `x`.
The third component counts the header-list entries examined (the spec's
scan-count probe). -/
def headerScanLoop (cache : List (List Nat × List Nat)) (x : List Nat) :
    List (List Nat × List Nat) → Option (List Nat) × List (List Nat × List Nat) × Nat
  | [] => (none, cache, 0)
  | (k, v) :: rest =>
    let cache1 := dictSet cache k v
    if k = x then (some v, cache1, 1)
    else
      let r := headerScanLoop cache1 x rest
      (r.1, r.2.1, r.2.2 + 1)

/-- Model of `WebsocketContext.header(x)` on a bytes key: serve from the cache when
possible, else scan (and memoize) the header list.  Returns the value, the
updated context, and the number of header-list entries scanned. -/
def WebsocketContext.header (ctx : WebsocketContext) (x : List Nat) :
    Option (List Nat) × WebsocketContext × Nat :=
  match dictGet ctx._header_cache x with
  | some v => (some v, ctx, 0)
  | none =>
    let r := headerScanLoop ctx._header_cache x ctx.scope_headers
    (r.1, { ctx with _header_cache := r.2.1 }, r.2.2)

/-- Model of `WebsocketContext.header(x)` on a `str` key: `x = x.encode("utf-8")`
then the bytes lookup. -/
def WebsocketContext.headerOfStr (ctx : WebsocketContext) (x : String) :
    Option (List Nat) × WebsocketContext × Nat :=
  ctx.header (utf8Encode x)

/-- Model of `WebsocketContext.header_str(x)`: the lookup, with a found value
decoded as Latin-1. -/
def WebsocketContext.header_str (ctx : WebsocketContext) (x : String) :
    Option String × WebsocketContext × Nat :=
  let r := ctx.headerOfStr x
  (r.1.map latin1Decode, r.2.1, r.2.2)

/-- Model of the `WebsocketContext` dataclass construction followed by `__post_init__`:
fresh cache, counter `0`, default (absent) Authorization; look up the
`authorization` header, feed it to the external verifier
`get_signer_sub` (modelled as a parameter since `latch_asgi.auth` is not
under `src/`), and fail — `none`, the unauthorized/forbidden raise —
unless the resulting Authorization is present. -/
def WebsocketContext.construct (get_signer_sub : String → Authorization)
    (scope_headers : List (List Nat × List Nat)) : Option WebsocketContext :=
  let ctx0 : WebsocketContext := ⟨scope_headers, [], ⟨none⟩, 0, []⟩
  let r := ctx0.header_str "authorization"
  let ctx1 := r.2.1
  let auth :=
    match r.1 with
    | some hv => get_signer_sub hv
    | none => ctx1.auth
  if auth.oauth_sub.isSome then some { ctx1 with auth := auth } else none

/-- Model of `add_request_span_attrs(data, prefix)`: record the attributes under the
given namespace on the request span. -/
def WebsocketContext.add_request_span_attrs (ctx : WebsocketContext)
    (data : List (String × String)) (pfx : String) : WebsocketContext :=
  { ctx with span_records := ctx.span_records ++ [(pfx, data)] }

/-- Model of `add_db_response(data)`: record under `db.response.<idx>` then
increment the counter. -/
def WebsocketContext.add_db_response (ctx : WebsocketContext)
    (data : List (String × String)) : WebsocketContext :=
  let ctx1 :=
    ctx.add_request_span_attrs data ("db.response." ++ Nat.repr ctx._db_response_idx)
  { ctx1 with _db_response_idx := ctx1._db_response_idx + 1 }

-- >>> JSON wrappers (`receive_json`, `receive_class_ext`, `receive_class`)

/-- Payload of an `HTTPBadRequest` raised by the JSON wrappers: either the
fixed parse-failure text or the validator's structured error serialized to
its wire form (`DataValidationError.json()`). -/
inductive ErrPayload (W : Type) where
  | parseFailed (msg : String)
  | validationFailed (wire : W)

/-- Outcome of an HTTP receive wrapper: a value, an `HTTPBadRequest` with
its payload, the connection-closed raise, or stream exhaustion. -/
inductive HTTPResult (ε α : Type) where
  | ok (a : α)
  | badRequest (payload : ε)
  | connectionClosed
  | noMoreEvents

/-- Model of `receive_json(receive)`, with the external Codec parse (`simdjson`)
passed in as `parse` (`none` models the `ValueError` raise): a parse
failure becomes a bad-request with the fixed human-readable payload. -/
def receive_json {V W : Type} (parse : List Nat → Option V)
    (evts : List HTTPReceiveEvent) : HTTPResult (ErrPayload W) V :=
  match receive_data evts with
  | .ok res =>
    match parse res with
    | some v => .ok v
    | none => .badRequest (.parseFailed "Failed to parse JSON")
  | .connectionClosed => .connectionClosed
  | .noMoreEvents => .noMoreEvents

/-- Model of `receive_class_ext(receive, cls)`, with the external Validator passed
in as `validate` and the error serialization `DataValidationError.json`
as `errToWire`: a validation failure becomes a bad-request carrying the
serialized structured error; success returns both the raw decoded value
and the validated typed value. -/
def receive_class_ext {V E T W : Type} (parse : List Nat → Option V)
    (validate : V → Except E T) (errToWire : E → W)
    (evts : List HTTPReceiveEvent) : HTTPResult (ErrPayload W) (V × T) :=
  match (receive_json parse evts : HTTPResult (ErrPayload W) V) with
  | .ok data =>
    match validate data with
    | .ok t => .ok (data, t)
    | .error e => .badRequest (.validationFailed (errToWire e))
  | .badRequest p => .badRequest p
  | .connectionClosed => .connectionClosed
  | .noMoreEvents => .noMoreEvents

/-- Model of `receive_class(receive, cls)`: `receive_class_ext(...)[1]`. -/
def receive_class {V E T W : Type} (parse : List Nat → Option V)
    (validate : V → Except E T) (errToWire : E → W)
    (evts : List HTTPReceiveEvent) : HTTPResult (ErrPayload W) T :=
  match receive_class_ext parse validate errToWire evts with
  | .ok vt => .ok vt.2
  | .badRequest p => .badRequest p
  | .connectionClosed => .connectionClosed
  | .noMoreEvents => .noMoreEvents

-- >>> Decimal representation helper (for the `db.response.<i>` namespaces)

/-- The decimal digit characters of `n`, most significant first; the
structural counterpart of `Nat.toDigits 10`. -/
def decChars (n : Nat) : List Char :=
  if n < 10 then [Nat.digitChar n]
  else decChars (n / 10) ++ [Nat.digitChar (n % 10)]
decreasing_by
  exact Nat.div_lt_self (by omega) (by omega)

end LatchAsgi

namespace LatchAsgi

-- >>> Theorems: HTTP body reader

/-- Draining a prefix of `more_body = true` chunks just accumulates their
concatenation into the buffer. -/
theorem receive_data_loop_true_chunks (pre : List (List Nat)) :
    ∀ (acc : List Nat) (tail : List HTTPReceiveEvent),
      receive_data_loop acc ((pre.map fun c => .request c true) ++ tail) =
        receive_data_loop (acc ++ pre.flatten) tail := by
  induction pre with
  | nil => intro acc tail; simp [receive_data_loop]
  | cons c pre ih =>
    intro acc tail
    simp [List.map_cons, List.cons_append, receive_data_loop,
      List.flatten_cons, ih (acc ++ c) tail, List.append_assoc]

/-- Running `receive_data_loop` over `chunkEvents` of a nonempty chunk list
returns the buffer followed by the chunks' concatenation. -/
theorem receive_data_loop_chunkEvents (bs : List (List Nat)) :
    ∀ (b acc : List Nat),
      receive_data_loop acc (chunkEvents (b :: bs)) = .ok (acc ++ (b :: bs).flatten) := by
  induction bs with
  | nil =>
    intro b acc
    simp [chunkEvents, receive_data_loop]
  | cons b2 bs ih =>
    intro b acc
    simp [chunkEvents, receive_data_loop, ih b2 (acc ++ b),
      List.flatten_cons, List.append_assoc]

/-- Claim C1: `receive_data` over the delivery `[(b1, true), ..., (bn, false)]`
returns the concatenation of the chunks in delivery order; a zero-length
final chunk terminates the read normally; and without observing a chunk
whose continuation flag is false the read never completes. -/
theorem receive_data_concat_of_chunks (b : List Nat) (bs : List (List Nat)) :
    receive_data (chunkEvents (b :: bs)) = .ok (b :: bs).flatten ∧
    (∀ pre : List (List Nat),
      receive_data ((pre.map fun c => .request c true) ++ [.request [] false]) =
        .ok pre.flatten) ∧
    (∀ cs : List (List Nat),
      receive_data (cs.map fun c => .request c true) = .noMoreEvents) := by
  refine ⟨?_, ?_, ?_⟩
  · simpa [receive_data] using receive_data_loop_chunkEvents bs b []
  · intro pre
    simp [receive_data, receive_data_loop_true_chunks pre [] [.request [] false],
      receive_data_loop]
  · intro cs
    have h := receive_data_loop_true_chunks cs [] []
    simpa [receive_data, receive_data_loop] using h

/-- Claim C4: a disconnect delivered before a completing chunk makes
`receive_data` fail with the connection-closed error (no partial data is
returned as complete); `receive_websocket_data` on a disconnect event
fails with its connection-closed error; and `receive_websocket_data_iter`
over `[msg "a", msg "b", disconnect]` yields exactly the payloads of
`"a"` then `"b"` and terminates without raising. -/
theorem disconnect_before_completion (pre : List (List Nat))
    (rest : List HTTPReceiveEvent) (wrest : List WebsocketReceiveEvent) :
    receive_data ((pre.map fun c => .request c true) ++ .disconnect :: rest) =
      .connectionClosed ∧
    receive_websocket_data (.disconnect :: wrest) = some (.connectionClosed, wrest) ∧
    receive_websocket_data_iter
        [.message none (some "a"), .message none (some "b"), .disconnect] =
      .closed [[97], [98]] := by
  refine ⟨?_, rfl, rfl⟩
  simp [receive_data, receive_data_loop_true_chunks pre [] (.disconnect :: rest),
    receive_data_loop]

/-- Claim C7: `receive_websocket_data` on a connect event fails with the
bad-message error; on a data event it yields the binary payload when that
is non-null (whatever the text payload is), else the UTF-8 encoding of the
text payload when that is non-null, and else fails with the bad-message
error for an empty message. -/
theorem receive_websocket_data_cases (b : List Nat) (t : Option String) (s : String)
    (rest : List WebsocketReceiveEvent) :
    receive_websocket_data (.connect :: rest) =
      some (.badMessage "connection has already been established", rest) ∧
    receive_websocket_data (.message (some b) t :: rest) = some (.ok b, rest) ∧
    receive_websocket_data (.message none (some s) :: rest) =
      some (.ok (utf8Encode s), rest) ∧
    receive_websocket_data (.message none none :: rest) =
      some (.badMessage "empty message", rest) :=
  ⟨rfl, rfl, rfl, rfl⟩

/-- Only a disconnect event produces the connection-closed outcome. -/
theorem receive_websocket_data_ev_eq_closed {e : WebsocketReceiveEvent}
    (h : receive_websocket_data_ev e = .connectionClosed) : e = .disconnect := by
  cases e with
  | connect => simp [receive_websocket_data_ev] at h
  | disconnect => rfl
  | message b t =>
    cases b with
    | some bs => simp [receive_websocket_data_ev] at h
    | none =>
      cases t with
      | some s => simp [receive_websocket_data_ev] at h
      | none => simp [receive_websocket_data_ev] at h

/-- If the iterator terminated normally, the stream decomposes as a block
of successfully yielded messages followed by a disconnect event. -/
theorem iter_closed_decomposition :
    ∀ (evts : List WebsocketReceiveEvent) (ms : List (List Nat)),
      receive_websocket_data_iter evts = .closed ms →
      ∃ pre rest, evts = pre ++ .disconnect :: rest ∧
        pre.map receive_websocket_data_ev = ms.map WSRecvResult.ok := by
  intro evts
  induction evts with
  | nil => intro ms h; simp [receive_websocket_data_iter] at h
  | cons e rest ih =>
    intro ms h
    cases he : receive_websocket_data_ev e with
    | ok b =>
      simp only [receive_websocket_data_iter, he] at h
      cases hr : receive_websocket_data_iter rest with
      | closed ms' =>
        rw [hr] at h
        simp only [WSIterResult.consMsg] at h
        obtain rfl : b :: ms' = ms := by cases h; rfl
        obtain ⟨pre, rest', hEq, hMap⟩ := ih ms' hr
        exact ⟨e :: pre, rest', by simp [hEq], by simp [he, hMap]⟩
      | raised ms' p => rw [hr] at h; simp [WSIterResult.consMsg] at h
      | starved ms' => rw [hr] at h; simp [WSIterResult.consMsg] at h
    | connectionClosed =>
      simp only [receive_websocket_data_iter, he] at h
      have hd : e = .disconnect := receive_websocket_data_ev_eq_closed he
      refine ⟨[], rest, by simp [hd], ?_⟩
      have : ms = ([] : List (List Nat)) := by
        cases h
        rfl
      simp [this]
    | badMessage p =>
      simp only [receive_websocket_data_iter, he] at h
      cases h

/-- If a bad-message raise escaped the iterator, the stream decomposes as
a block of successfully yielded messages followed by the offending event. -/
theorem iter_raised_decomposition :
    ∀ (evts : List WebsocketReceiveEvent) (ms : List (List Nat)) (p : String),
      receive_websocket_data_iter evts = .raised ms p →
      ∃ pre e rest, evts = pre ++ e :: rest ∧
        pre.map receive_websocket_data_ev = ms.map WSRecvResult.ok ∧
        receive_websocket_data_ev e = .badMessage p := by
  intro evts
  induction evts with
  | nil => intro ms p h; simp [receive_websocket_data_iter] at h
  | cons e rest ih =>
    intro ms p h
    cases he : receive_websocket_data_ev e with
    | ok b =>
      simp only [receive_websocket_data_iter, he] at h
      cases hr : receive_websocket_data_iter rest with
      | closed ms' => rw [hr] at h; simp [WSIterResult.consMsg] at h
      | raised ms' p' =>
        rw [hr] at h
        simp only [WSIterResult.consMsg] at h
        obtain ⟨hms, hp⟩ : b :: ms' = ms ∧ p' = p := by
          cases h
          exact ⟨rfl, rfl⟩
        subst hms
        subst hp
        obtain ⟨pre, e', rest', hEq, hMap, hBad⟩ := ih ms' p' hr
        exact ⟨e :: pre, e', rest', by simp [hEq], by simp [he, hMap], hBad⟩
      | starved ms' => rw [hr] at h; simp [WSIterResult.consMsg] at h
    | connectionClosed =>
      simp only [receive_websocket_data_iter, he] at h
      cases h
    | badMessage p' =>
      simp only [receive_websocket_data_iter, he] at h
      obtain ⟨hms, hp⟩ : ([] : List (List Nat)) = ms ∧ p' = p := by
        cases h
        exact ⟨rfl, rfl⟩
      subst hp
      exact ⟨[], e, rest, rfl, by simp [← hms], he⟩

/-- Claim C10: the iterator ends its yielded sequence silently only when
the underlying receive raised the connection-closed error (a disconnect
event), and every bad-message raise propagates out of the iterator after
the successfully yielded block. -/
theorem receive_websocket_data_iter_termination :
    (∀ (evts : List WebsocketReceiveEvent) (ms : List (List Nat)),
      receive_websocket_data_iter evts = .closed ms →
      ∃ pre rest, evts = pre ++ .disconnect :: rest ∧
        pre.map receive_websocket_data_ev = ms.map WSRecvResult.ok) ∧
    (∀ (evts : List WebsocketReceiveEvent) (ms : List (List Nat)) (p : String),
      receive_websocket_data_iter evts = .raised ms p →
      ∃ pre e rest, evts = pre ++ e :: rest ∧
        pre.map receive_websocket_data_ev = ms.map WSRecvResult.ok ∧
        receive_websocket_data_ev e = .badMessage p) :=
  ⟨iter_closed_decomposition, iter_raised_decomposition⟩

/-- Witness for claim C10 at a concrete stream: one yielded binary message
followed by a disconnect. -/
theorem receive_websocket_data_iter_termination_witness :
    ∃ pre rest,
      [WebsocketReceiveEvent.message (some [1, 2]) none, .disconnect] =
        pre ++ WebsocketReceiveEvent.disconnect :: rest ∧
      pre.map receive_websocket_data_ev = [[1, 2]].map WSRecvResult.ok :=
  receive_websocket_data_iter_termination.1
    [WebsocketReceiveEvent.message (some [1, 2]) none, .disconnect] [[1, 2]] rfl

-- >>> Decimal representation: `Nat.repr` is injective

/-- Unfolding `decChars` on a single digit. -/
theorem decChars_lt_ten {n : Nat} (h : n < 10) : decChars n = [Nat.digitChar n] := by
  rw [decChars, if_pos h]

/-- Unfolding `decChars` on a number of two or more digits. -/
theorem decChars_ge_ten {n : Nat} (h : ¬ n < 10) :
    decChars n = decChars (n / 10) ++ [Nat.digitChar (n % 10)] := by
  rw [decChars, if_neg h]

/-- With enough fuel, the core loop of `Nat.repr` computes `decChars`
prepended to the accumulator. -/
theorem toDigitsCore_eq_decChars :
    ∀ (f n : Nat) (acc : List Char), n < f →
      Nat.toDigitsCore 10 f n acc = decChars n ++ acc := by
  intro f
  induction f with
  | zero => intro n acc h; omega
  | succ f ih =>
    intro n acc h
    rw [Nat.toDigitsCore]
    by_cases h10 : n / 10 = 0
    · have hn : n < 10 := by omega
      simp [h10, decChars, hn, Nat.mod_eq_of_lt hn]
    · have hn : ¬ n < 10 := by omega
      simp only [h10, if_neg]
      rw [ih (n / 10) (Nat.digitChar (n % 10) :: acc) (by omega)]
      rw [decChars_ge_ten hn]
      simp [List.append_assoc]

/-- Expression of `Nat.repr` in terms of `decChars`. -/
theorem repr_eq_decChars (n : Nat) : Nat.repr n = (decChars n).asString := by
  show (Nat.toDigits 10 n).asString = _
  rw [Nat.toDigits, toDigitsCore_eq_decChars (n + 1) n [] (Nat.lt_succ_self n),
    List.append_nil]

/-- The digit list of a number is never empty. -/
theorem decChars_ne_nil (n : Nat) : decChars n ≠ [] := by
  rw [decChars]
  by_cases h : n < 10 <;> simp [h]

/-- A number of at least two decimal digits has at least two characters. -/
theorem decChars_length_ge_two {n : Nat} (h : ¬ n < 10) : 2 ≤ (decChars n).length := by
  rw [decChars, if_neg h]
  cases hc : decChars (n / 10) with
  | nil => exact absurd hc (decChars_ne_nil _)
  | cons c cs => simp [hc]

/-- The decimal digit characters are distinct for distinct digits. -/
theorem digitChar_inj_lt_ten :
    ∀ a < 10, ∀ b < 10, Nat.digitChar a = Nat.digitChar b → a = b := by decide

/-- The decimal character representation is injective. -/
theorem decChars_injective : ∀ a b : Nat, decChars a = decChars b → a = b := by
  intro a
  induction a using Nat.strong_induction_on with
  | _ a ih =>
    intro b h
    by_cases ha : a < 10 <;> by_cases hb : b < 10
    · rw [decChars_lt_ten ha, decChars_lt_ten hb] at h
      injection h with h1 _
      exact digitChar_inj_lt_ten a ha b hb h1
    · have h2 := decChars_length_ge_two hb
      rw [← h, decChars_lt_ten ha] at h2
      simp at h2
    · have h2 := decChars_length_ge_two ha
      rw [h, decChars_lt_ten hb] at h2
      simp at h2
    · rw [decChars_ge_ten ha, decChars_ge_ten hb] at h
      obtain ⟨h1, h2⟩ := List.append_inj' h rfl
      injection h2 with hd _
      have hdiv : a / 10 = b / 10 :=
        ih (a / 10) (Nat.div_lt_self (by omega) (by omega)) (b / 10) h1
      have hmod : a % 10 = b % 10 :=
        digitChar_inj_lt_ten (a % 10) (Nat.mod_lt a (by omega)) (b % 10)
          (Nat.mod_lt b (by omega)) hd
      omega

/-- Strings with the same character data are equal. -/
theorem string_eq_of_data_eq {a b : String} (h : a.data = b.data) : a = b := by
  cases a
  cases b
  exact congrArg String.mk h

/-- The decimal representation of naturals is injective. -/
theorem Nat_repr_injective : Function.Injective Nat.repr := by
  intro a b h
  rw [repr_eq_decChars, repr_eq_decChars] at h
  apply decChars_injective
  have := congrArg String.data h
  simpa [List.asString] using this

/-- The `db.response.<i>` namespace strings are injective in `i`. -/
theorem dbNamespace_injective :
    Function.Injective (fun i : Nat => "db.response." ++ Nat.repr i) := by
  intro i j h
  apply Nat_repr_injective
  have hd := congrArg String.data h
  simp only [String.data_append] at hd
  exact string_eq_of_data_eq (List.append_cancel_left hd)

-- >>> Theorems: db-response counter

/-- Folding `add_db_response` advances the counter by the number of calls
and appends one record per call, namespaced by the consecutive counter
values. -/
theorem add_db_response_fold (datas : List (List (String × String))) :
    ∀ ctx : WebsocketContext,
      (datas.foldl WebsocketContext.add_db_response ctx)._db_response_idx =
        ctx._db_response_idx + datas.length ∧
      (datas.foldl WebsocketContext.add_db_response ctx).span_records.map Prod.fst =
        ctx.span_records.map Prod.fst ++
          (List.range' ctx._db_response_idx datas.length).map
            (fun i => "db.response." ++ Nat.repr i) := by
  induction datas with
  | nil => intro ctx; simp
  | cons d ds ih =>
    intro ctx
    obtain ⟨h1, h2⟩ := ih (ctx.add_db_response d)
    rw [List.foldl_cons]
    constructor
    · rw [h1]
      simp only [WebsocketContext.add_db_response, WebsocketContext.add_request_span_attrs,
        List.length_cons]
      omega
    · rw [h2, List.length_cons, List.range'_succ]
      simp [WebsocketContext.add_db_response, WebsocketContext.add_request_span_attrs]

/-- Claim C9: a freshly constructed context has db-response counter 0 and
no records; each `add_db_response` call records its attributes under
`db.response.<i>` for the current counter value `i` and increments the
counter by exactly one, so `n` calls on one context produce the
pairwise-disjoint namespaces `db.response.0` through `db.response.(n-1)`,
regardless of payload content. -/
theorem add_db_response_disjoint_namespaces (gss : String → Authorization)
    (hs : List (List Nat × List Nat)) (ctx0 ctx : WebsocketContext)
    (datas : List (List (String × String))) :
    (WebsocketContext.construct gss hs = some ctx0 →
      ctx0._db_response_idx = 0 ∧ ctx0.span_records = []) ∧
    (ctx._db_response_idx = 0 →
      (datas.foldl WebsocketContext.add_db_response ctx)._db_response_idx =
        datas.length ∧
      (datas.foldl WebsocketContext.add_db_response ctx).span_records.map Prod.fst =
        ctx.span_records.map Prod.fst ++
          (List.range datas.length).map (fun i => "db.response." ++ Nat.repr i) ∧
      ((List.range datas.length).map
        (fun i => "db.response." ++ Nat.repr i)).Nodup) := by
  constructor
  · intro h
    simp only [WebsocketContext.construct, WebsocketContext.header_str,
      WebsocketContext.headerOfStr, WebsocketContext.header, dictGet] at h
    split at h
    · obtain rfl := Option.some.inj h
      exact ⟨rfl, rfl⟩
    · simp at h
  · intro h0
    obtain ⟨h1, h2⟩ := add_db_response_fold datas ctx
    rw [h0] at h1 h2
    refine ⟨by simpa using h1, ?_, ?_⟩
    · rw [h2, List.range_eq_range']
    · exact (List.nodup_range _).map dbNamespace_injective

-- >>> Theorems: header cache

/-- Setting a key makes it retrievable. -/
theorem dictGet_dictSet_self (d : List (List Nat × List Nat)) (k v : List Nat) :
    dictGet (dictSet d k v) k = some v := by
  induction d with
  | nil => simp [dictSet, dictGet]
  | cons kv rest ih =>
    obtain ⟨k', v'⟩ := kv
    by_cases hk : k' = k
    · simp [dictSet, dictGet, hk]
    · simp [dictSet, dictGet, hk, ih]

/-- Setting one key leaves other lookups unchanged. -/
theorem dictGet_dictSet_ne (d : List (List Nat × List Nat)) (k v x : List Nat)
    (hne : k ≠ x) : dictGet (dictSet d k v) x = dictGet d x := by
  induction d with
  | nil => simp [dictSet, dictGet, hne]
  | cons kv rest ih =>
    obtain ⟨k', v'⟩ := kv
    by_cases hk : k' = k
    · subst hk
      simp [dictSet, dictGet, hne]
    · by_cases hx : k' = x
      · subst hx
        simp [dictSet, dictGet, hk]
      · simp [dictSet, dictGet, hk, hx, ih]

/-- A successful scan leaves the sought key retrievable from the updated
cache (the matching header was memoized before returning). -/
theorem headerScanLoop_found (x : List Nat) :
    ∀ (hs cache : List (List Nat × List Nat)) (v : List Nat),
      (headerScanLoop cache x hs).1 = some v →
      dictGet (headerScanLoop cache x hs).2.1 x = some v := by
  intro hs
  induction hs with
  | nil => intro cache v h; simp [headerScanLoop] at h
  | cons kv rest ih =>
    intro cache v h
    obtain ⟨k, w⟩ := kv
    by_cases hk : k = x
    · subst hk
      simp [headerScanLoop] at h ⊢
      simp [dictGet_dictSet_self, h]
    · simp only [headerScanLoop, if_neg hk] at h ⊢
      exact ih (dictSet cache k w) v h

/-- A failed scan leaves lookups of the sought key in the cache unchanged
(only other keys were memoized). -/
theorem headerScanLoop_not_found (x : List Nat) :
    ∀ (hs cache : List (List Nat × List Nat)),
      (headerScanLoop cache x hs).1 = none →
      dictGet (headerScanLoop cache x hs).2.1 x = dictGet cache x := by
  intro hs
  induction hs with
  | nil => intro cache _; simp [headerScanLoop]
  | cons kv rest ih =>
    intro cache h
    obtain ⟨k, w⟩ := kv
    by_cases hk : k = x
    · subst hk
      simp only [headerScanLoop, if_pos rfl] at h
      simp at h
    · simp only [headerScanLoop, if_neg hk] at h ⊢
      rw [ih (dictSet cache k w) h, dictGet_dictSet_ne cache k w x hk]

/-- The value found by a scan and the number of entries scanned depend
only on the header list and the key, not on the starting cache. -/
theorem headerScanLoop_cache_independent (x : List Nat) :
    ∀ (hs cache cache' : List (List Nat × List Nat)),
      (headerScanLoop cache x hs).1 = (headerScanLoop cache' x hs).1 ∧
      (headerScanLoop cache x hs).2.2 = (headerScanLoop cache' x hs).2.2 := by
  intro hs
  induction hs with
  | nil => intro cache cache'; simp [headerScanLoop]
  | cons kv rest ih =>
    intro cache cache'
    obtain ⟨k, w⟩ := kv
    by_cases hk : k = x
    · subst hk
      simp only [headerScanLoop, if_pos rfl]
      exact ⟨rfl, rfl⟩
    · simp only [headerScanLoop, if_neg hk]
      obtain ⟨h1, h2⟩ := ih (dictSet cache k w) (dictSet cache' k w)
      exact ⟨h1, by rw [h2]⟩

/-- The cache produced by a scan is exactly the starting cache with every
scanned header entry memoized into it, in scan order. -/
theorem headerScanLoop_memoizes (x : List Nat) :
    ∀ (hs cache : List (List Nat × List Nat)),
      (headerScanLoop cache x hs).2.1 =
        (hs.take (headerScanLoop cache x hs).2.2).foldl
          (fun d kv => dictSet d kv.1 kv.2) cache := by
  intro hs
  induction hs with
  | nil => intro cache; simp [headerScanLoop]
  | cons kv rest ih =>
    intro cache
    obtain ⟨k, w⟩ := kv
    by_cases hk : k = x
    · subst hk
      simp [headerScanLoop, if_pos rfl, List.take, List.foldl]
    · simp only [headerScanLoop, if_neg hk]
      rw [List.take_succ_cons, List.foldl_cons]
      exact ih (dictSet cache k w)

/-- Claim C2 (amended): header lookup is idempotent — two successive
lookups of the same key return the same value — and cache-consistent: a
key already cached is answered with no scan; when the first lookup finds
the key (cached or present in the header list) the second lookup performs
no rescan; and every header entry examined during a scan is memoized into
the cache.  (For a key absent from both the cache and the header list,
every lookup rescans the full header list; see the counterexample.) -/
theorem header_lookup_cache_consistent (ctx : WebsocketContext) (x : List Nat) :
    ((((ctx.header x).2.1).header x).1 = (ctx.header x).1) ∧
    (∀ v, (ctx.header x).1 = some v →
      ((ctx.header x).2.1).header x = (some v, (ctx.header x).2.1, 0)) ∧
    (∀ v, dictGet ctx._header_cache x = some v → ctx.header x = (some v, ctx, 0)) ∧
    (dictGet ctx._header_cache x = none →
      ((ctx.header x).2.1)._header_cache =
        (ctx.scope_headers.take ((ctx.header x).2.2)).foldl
          (fun d kv => dictSet d kv.1 kv.2) ctx._header_cache) := by
  cases hc : dictGet ctx._header_cache x with
  | some v =>
    have h1 : ctx.header x = (some v, ctx, 0) := by
      simp [WebsocketContext.header, hc]
    refine ⟨?_, ?_, ?_, ?_⟩
    · rw [h1]
      simp [h1]
    · intro w hw
      rw [h1] at hw ⊢
      simp only at hw
      obtain rfl := Option.some.inj hw
      simpa using h1
    · intro w hw
      obtain rfl := Option.some.inj hw
      exact h1
    · intro hn
      exact absurd hn (by simp)
  | none =>
    have hset : ctx.header x =
        ((headerScanLoop ctx._header_cache x ctx.scope_headers).1,
          { ctx with _header_cache :=
              (headerScanLoop ctx._header_cache x ctx.scope_headers).2.1 },
          (headerScanLoop ctx._header_cache x ctx.scope_headers).2.2) := by
      simp [WebsocketContext.header, hc]
    cases hv : (headerScanLoop ctx._header_cache x ctx.scope_headers).1 with
    | some v =>
      have hcached := headerScanLoop_found x ctx.scope_headers ctx._header_cache v hv
      have hsecond :
          ({ ctx with _header_cache :=
              (headerScanLoop ctx._header_cache x ctx.scope_headers).2.1 } :
            WebsocketContext).header x =
          (some v,
            { ctx with _header_cache :=
              (headerScanLoop ctx._header_cache x ctx.scope_headers).2.1 },
            0) := by
        simp [WebsocketContext.header, hcached]
      refine ⟨?_, ?_, ?_, ?_⟩
      · rw [hset]
        simp [hsecond, hv]
      · intro w hw
        rw [hset] at hw ⊢
        simp only at hw
        rw [hv] at hw
        obtain rfl := Option.some.inj hw
        simpa using hsecond
      · intro w hw
        exact absurd hw (by simp)
      · intro _
        rw [hset]
        exact headerScanLoop_memoizes x ctx.scope_headers ctx._header_cache
    | none =>
      have hpres : dictGet
          (headerScanLoop ctx._header_cache x ctx.scope_headers).2.1 x = none := by
        rw [headerScanLoop_not_found x ctx.scope_headers ctx._header_cache hv, hc]
      have hind := headerScanLoop_cache_independent x ctx.scope_headers
        (headerScanLoop ctx._header_cache x ctx.scope_headers).2.1 ctx._header_cache
      refine ⟨?_, ?_, ?_, ?_⟩
      · rw [hset]
        simp [WebsocketContext.header, hpres, hind.1, hv]
      · intro w hw
        rw [hset] at hw
        simp only at hw
        rw [hv] at hw
        exact absurd hw (by simp)
      · intro w hw
        exact absurd hw (by simp)
      · intro _
        rw [hset]
        exact headerScanLoop_memoizes x ctx.scope_headers ctx._header_cache

/-- Witness for claim C2 at concrete contexts: a cached key is answered
with no scan, and a scan memoizes the scanned entries. -/
theorem header_lookup_cache_consistent_witness :
    (⟨[], [([10], [20])], ⟨some "s"⟩, 0, []⟩ : WebsocketContext).header [10] =
      (some [20], ⟨[], [([10], [20])], ⟨some "s"⟩, 0, []⟩, 0) ∧
    ((((⟨[([30], [40])], [([10], [20])], ⟨some "s"⟩, 0, []⟩ :
          WebsocketContext).header [30]).2.1)._header_cache =
      ((([([30], [40])] : List (List Nat × List Nat)).take
        (((⟨[([30], [40])], [([10], [20])], ⟨some "s"⟩, 0, []⟩ :
          WebsocketContext).header [30]).2.2)).foldl
            (fun d kv => dictSet d kv.1 kv.2) [([10], [20])])) := by
  exact ⟨(header_lookup_cache_consistent
      ⟨[], [([10], [20])], ⟨some "s"⟩, 0, []⟩ [10]).2.2.1 [20] rfl,
    (header_lookup_cache_consistent
      ⟨[([30], [40])], [([10], [20])], ⟨some "s"⟩, 0, []⟩ [30]).2.2.2 rfl⟩

/-- Counterexample to claim C2 as stated: on a context produced by
construction over the single header `authorization`, looking up the
absent key `z` (byte 122) twice has the second lookup scan the header
list again — scan count 1, not 0 — so a lookup key can cause more than
one scan of the header list. -/
theorem header_second_lookup_rescans :
    WebsocketContext.construct (fun _ => ⟨some "s"⟩)
        [(utf8Encode "authorization", [116])] =
      some ⟨[(utf8Encode "authorization", [116])],
        [(utf8Encode "authorization", [116])], ⟨some "s"⟩, 0, []⟩ ∧
    ((((⟨[(utf8Encode "authorization", [116])],
          [(utf8Encode "authorization", [116])], ⟨some "s"⟩, 0, []⟩ :
        WebsocketContext).header [122]).2.1).header [122]).2.2 = 1 ∧
    (1 : Nat) ≠ 0 := by
  refine ⟨by decide, by decide, by decide⟩

-- >>> Theorems: HTTP wire sender

/-- Counterexample to claim C3 as stated: for the literal input, with the
body bytes the spec itself fixes (the seven bytes of the compact JSON
text), the Content-Length header value is the decimal text 7 — not 9. -/
theorem send_response_literal_content_length_not_nine :
    send_json dumpsLitA1 200 () (.str "application/json") [] =
      [.start 200 [(latin1Encode "Content-Length", latin1Encode "7"),
        (latin1Encode "Content-Type", latin1Encode "application/json")],
       .body (utf8Encode "\x7b\"a\":1\x7d") false] ∧
    latin1Encode "7" ≠ latin1Encode "9" := by
  refine ⟨by decide, by decide⟩

/-- Claim C3 (amended): the HTTP response sender emits exactly two wire
events — a start event with status and headers, then one body event with
the full payload and continuation flag false — and the start headers
begin with a Content-Length entry, before any caller-supplied header,
whose value is the decimal byte length of the payload; for the literal
input the Content-Length value is 7 and the body is the seven-byte
serialized object. -/
theorem send_http_data_two_events (status : Nat) (data : StrOrBytes)
    (content_type : Option StrOrBytes) (headers : List (StrOrBytes × StrOrBytes)) :
    send_http_data status data content_type headers =
      [.start status
          ((latin1Encode "Content-Length",
            latin1Encode (Nat.repr data.encodeUtf8IfStr.length)) ::
            (headers.map (fun kv => (kv.1.encodeLatin1, kv.2.encodeLatin1)) ++
              match content_type with
              | some ct => [(latin1Encode "Content-Type", ct.encodeLatin1)]
              | none => [])),
        .body data.encodeUtf8IfStr false] ∧
    send_json dumpsLitA1 200 () (.str "application/json") [] =
      [.start 200 [(latin1Encode "Content-Length", latin1Encode (Nat.repr 7)),
        (latin1Encode "Content-Type", latin1Encode "application/json")],
       .body (utf8Encode "\x7b\"a\":1\x7d") false] := by
  exact ⟨rfl, by decide⟩

-- >>> Theorems: context construction requires authorization

/-- Claim C5: `WebsocketContext` construction completes only with a
present Authorization: every constructed context carries a subject; if
the `authorization` header is absent, or the verifier yields no subject,
construction itself fails (the unauthorized/forbidden raise), so no
handler runs for an unauthenticated connection. -/
theorem construct_requires_authorization (gss : String → Authorization)
    (hs : List (List Nat × List Nat)) :
    (∀ ctx, WebsocketContext.construct gss hs = some ctx →
      ctx.auth.oauth_sub.isSome = true) ∧
    (((⟨hs, [], ⟨none⟩, 0, []⟩ : WebsocketContext).header_str "authorization").1 =
        none →
      WebsocketContext.construct gss hs = none) ∧
    (∀ hv,
      ((⟨hs, [], ⟨none⟩, 0, []⟩ : WebsocketContext).header_str "authorization").1 =
        some hv →
      (gss hv).oauth_sub = none → WebsocketContext.construct gss hs = none) := by
  refine ⟨?_, ?_, ?_⟩
  · intro ctx h
    simp only [WebsocketContext.construct] at h
    split at h
    · next hcond =>
        obtain rfl := Option.some.inj h
        exact hcond
    · exact absurd h (by simp)
  · intro h
    simp only [WebsocketContext.construct, h]
    simp [WebsocketContext.header_str, WebsocketContext.headerOfStr,
      WebsocketContext.header, dictGet]
  · intro hv h hsub
    simp only [WebsocketContext.construct, h]
    simp [hsub]

/-- Witness for claim C5 at concrete inputs: a successful construction
carries the subject; construction fails with no headers; construction
fails when the verifier returns no subject. -/
theorem construct_requires_authorization_witness :
    ((⟨[(utf8Encode "authorization", [116])], [(utf8Encode "authorization", [116])],
        ⟨some "w"⟩, 0, []⟩ : WebsocketContext).auth.oauth_sub.isSome = true) ∧
    WebsocketContext.construct (fun _ => ⟨some "w"⟩) [] = none ∧
    WebsocketContext.construct (fun _ => ⟨none⟩)
      [(utf8Encode "authorization", [116])] = none := by
  refine ⟨?_, ?_, ?_⟩
  · exact (construct_requires_authorization (fun _ => ⟨some "w"⟩)
      [(utf8Encode "authorization", [116])]).1
      ⟨[(utf8Encode "authorization", [116])], [(utf8Encode "authorization", [116])],
        ⟨some "w"⟩, 0, []⟩ (by decide)
  · exact (construct_requires_authorization (fun _ => ⟨some "w"⟩) []).2.1 (by decide)
  · exact (construct_requires_authorization (fun _ => ⟨none⟩)
      [(utf8Encode "authorization", [116])]).2.2 (latin1Decode [116]) (by decide) rfl

-- >>> Theorems: websocket accept

/-- Claim C6: `accept_websocket_connection` fails with the bad-message
error — before sending anything — whenever the first event received is
not a websocket connect event; in particular, after a first accept has
consumed the connect event, a second accept call in a row fails with
bad-message. -/
theorem accept_requires_connect (sub1 sub2 : Option String)
    (hd1 hd2 : List (StrOrBytes × StrOrBytes)) (e : WebsocketReceiveEvent)
    (rest : List WebsocketReceiveEvent) :
    (e ≠ .connect →
      accept_websocket_connection sub1 hd1 (e :: rest) =
        .badMessage "cannot accept connection without connection request") ∧
    (accept_websocket_connection sub1 hd1 (.connect :: e :: rest) =
      .accepted ⟨sub1, hd1.map fun kv => (kv.1.encodeLatin1, kv.2.encodeLatin1)⟩
        (e :: rest)) ∧
    (e ≠ .connect →
      accept_websocket_connection sub2 hd2 (e :: rest) =
        .badMessage "cannot accept connection without connection request") := by
  refine ⟨?_, rfl, ?_⟩ <;>
    intro hne <;> cases e <;> first | rfl | exact absurd rfl hne

/-- Witness for claim C6: a disconnect event in place of the connect
event makes both a first and a second accept call fail. -/
theorem accept_requires_connect_witness :
    accept_websocket_connection none [] [.disconnect] =
      .badMessage "cannot accept connection without connection request" ∧
    accept_websocket_connection none [] [.connect, .disconnect] =
      .accepted ⟨none, []⟩ [.disconnect] ∧
    accept_websocket_connection (some "p") [(.str "k", .str "v")] [.disconnect] =
      .badMessage "cannot accept connection without connection request" := by
  obtain ⟨h1, h2, h3⟩ :=
    accept_requires_connect none (some "p") [] [(.str "k", .str "v")] .disconnect []
  exact ⟨h1 (by decide), h2, h3 (by decide)⟩

-- >>> Theorems: JSON validation wrappers

/-- Claim C8: on input whose bytes parse but whose decoded value fails
structural validation, `receive_class_ext` and `receive_class` raise a
bad-request whose payload is the validator's structured error in its
serialized wire form — never the parser error; on success
`receive_class_ext` returns both the raw decoded value and the validated
typed value. -/
theorem receive_class_validation (V E T W : Type) (parse : List Nat → Option V)
    (validate : V → Except E T) (errToWire : E → W)
    (evts : List HTTPReceiveEvent) (bs : List Nat) (v : V)
    (hrecv : receive_data evts = .ok bs) (hparse : parse bs = some v) :
    (∀ e : E, validate v = .error e →
      receive_class_ext parse validate errToWire evts =
        .badRequest (.validationFailed (errToWire e)) ∧
      receive_class parse validate errToWire evts =
        .badRequest (.validationFailed (errToWire e)) ∧
      ∀ m, receive_class_ext parse validate errToWire evts ≠
        .badRequest (.parseFailed m)) ∧
    (∀ t : T, validate v = .ok t →
      receive_class_ext parse validate errToWire evts = .ok (v, t) ∧
      receive_class parse validate errToWire evts = .ok t) := by
  constructor
  · intro e he
    refine ⟨?_, ?_, ?_⟩ <;>
      simp [receive_class_ext, receive_class, receive_json, hrecv, hparse, he]
  · intro t ht
    constructor <;>
      simp [receive_class_ext, receive_class, receive_json, hrecv, hparse, ht]

/-- Witness for claim C8 at a concrete single-chunk body, a parse that
returns the bytes themselves, and validators that fail and succeed. -/
theorem receive_class_validation_witness :
    receive_class_ext (fun bs : List Nat => some bs)
        (fun _ : List Nat => (Except.error "bad" : Except String Unit)) (fun e => [e])
        [.request [1] false] = .badRequest (.validationFailed ["bad"]) ∧
    receive_class (fun bs : List Nat => some bs)
        (fun _ : List Nat => (Except.error "bad" : Except String Unit)) (fun e => [e])
        [.request [1] false] = .badRequest (.validationFailed ["bad"]) ∧
    receive_class_ext (fun bs : List Nat => some bs)
        (fun _ : List Nat => (Except.error "bad" : Except String Unit)) (fun e => [e])
        [.request [1] false] ≠ .badRequest (.parseFailed "Failed to parse JSON") ∧
    receive_class_ext (fun bs : List Nat => some bs)
        (fun _ : List Nat => (Except.ok () : Except String Unit)) (fun e => [e])
        [.request [1] false] = .ok ([1], ()) := by
  obtain ⟨ha, hb, hc⟩ :=
    (receive_class_validation (List Nat) String Unit (List String)
      (fun bs => some bs) (fun _ => Except.error "bad") (fun e => [e])
      [.request [1] false] [1] [1] rfl rfl).1 "bad" rfl
  exact ⟨ha, hb, hc "Failed to parse JSON",
    ((receive_class_validation (List Nat) String Unit (List String)
      (fun bs => some bs) (fun _ => Except.ok ()) (fun e => [e])
      [.request [1] false] [1] [1] rfl rfl).2 () rfl).1⟩

/-- Witness for claim C9: a concrete construction has counter 0 and no
records, and three concrete calls produce the namespaces with indices 0,
1, 2 with no collision. -/
theorem add_db_response_disjoint_namespaces_witness :
    ((⟨[(utf8Encode "authorization", [116])], [(utf8Encode "authorization", [116])],
        ⟨some "s"⟩, 0, []⟩ : WebsocketContext)._db_response_idx = 0 ∧
      (⟨[(utf8Encode "authorization", [116])], [(utf8Encode "authorization", [116])],
        ⟨some "s"⟩, 0, []⟩ : WebsocketContext).span_records = []) ∧
    ((([[("a", "b")], [], [("c", "d")]] : List (List (String × String))).foldl
        WebsocketContext.add_db_response
        (⟨[], [], ⟨some "t"⟩, 0, []⟩ : WebsocketContext))._db_response_idx = 3 ∧
      (([[("a", "b")], [], [("c", "d")]] : List (List (String × String))).foldl
        WebsocketContext.add_db_response
        (⟨[], [], ⟨some "t"⟩, 0, []⟩ : WebsocketContext)).span_records.map Prod.fst =
        (⟨[], [], ⟨some "t"⟩, 0, []⟩ :
          WebsocketContext).span_records.map Prod.fst ++
          (List.range 3).map (fun i => "db.response." ++ Nat.repr i) ∧
      ((List.range 3).map (fun i => "db.response." ++ Nat.repr i)).Nodup) :=
  ⟨(add_db_response_disjoint_namespaces (fun _ => ⟨some "s"⟩)
      [(utf8Encode "authorization", [116])]
      ⟨[(utf8Encode "authorization", [116])], [(utf8Encode "authorization", [116])],
        ⟨some "s"⟩, 0, []⟩
      ⟨[], [], ⟨some "t"⟩, 0, []⟩ [[("a", "b")], [], [("c", "d")]]).1 (by decide),
   (add_db_response_disjoint_namespaces (fun _ => ⟨some "s"⟩)
      [(utf8Encode "authorization", [116])]
      ⟨[(utf8Encode "authorization", [116])], [(utf8Encode "authorization", [116])],
        ⟨some "s"⟩, 0, []⟩
      ⟨[], [], ⟨some "t"⟩, 0, []⟩ [[("a", "b")], [], [("c", "d")]]).2 rfl⟩
